import Mathlib

/-!
Shallow embedding of `src/cluster_context.rs` from the policy-sdk-rust
repository.

The Rust module exposes a `ClusterContext` with three list accessors
(`ingresses`, `services`, `namespaces`) and three single-item accessors
(`ingress`, `service`, `namespace`).  Each list accessor performs one
`wapc_guest::host_call`, decodes the returned bytes as UTF-8 and then as a
JSON `List<K>` envelope, extracts `.items`, and (for the namespaced kinds)
applies a client-side namespace filter.  External collaborators — the waPC
host, `std::str::from_utf8` and `serde_json::from_str` — are modelled as
the fields of a `World` record; errors are modelled by their message
strings, mirroring `anyhow`.
-/

/-- One waPC `host_call` request: `host_call(binding, ns, op, msg)`. -/
structure HostRequest where
  binding : String
  ns : String
  op : String
  msg : List Nat
deriving DecidableEq

/-- Kubernetes object metadata: `metadata.name` and `metadata.namespace`
are both optional in the k8s_openapi schema. -/
structure ObjectMeta where
  name : Option String
  «namespace» : Option String
deriving DecidableEq

/-- An `Ingress` record; everything outside `metadata` is opaque payload. -/
structure Ingress where
  metadata : ObjectMeta
  spec : String
deriving DecidableEq

/-- A `Service` record; everything outside `metadata` is opaque payload. -/
structure Service where
  metadata : ObjectMeta
  spec : String
deriving DecidableEq

/-- A `Namespace` record; everything outside `metadata` is opaque payload. -/
structure Namespace where
  metadata : ObjectMeta
  spec : String
deriving DecidableEq

/-- The `k8s_openapi::List<K>` envelope: a JSON document with an `items`
array. -/
structure KList (K : Type) where
  items : List K
deriving DecidableEq

/-- The two-variant namespace filter from `cluster_context.rs`. -/
inductive NamespaceFilter where
  | AllNamespaces : NamespaceFilter
  | Namespace : String → NamespaceFilter
deriving DecidableEq

/-- The external collaborators of the accessor, as pure functions:
the waPC host (`hostCall`), `std::str::from_utf8` (`fromUtf8`), and
`serde_json::from_str::<List<K>>` for each of the three kinds.
Errors are represented by their display strings. -/
structure World where
  hostCall : HostRequest → Except String (List Nat)
  fromUtf8 : List Nat → Except String String
  parseIngressList : String → Except String (KList Ingress)
  parseServiceList : String → Except String (KList Service)
  parseNamespaceList : String → Except String (KList Namespace)

/-- `wapc_guest::host_call`, instrumented: returns the singleton log of the
request it issues together with the host's response. -/
def host_call (w : World) (binding ns op : String) (msg : List Nat) :
    List HostRequest × Except String (List Nat) :=
  ([⟨binding, ns, op, msg⟩], w.hostCall ⟨binding, ns, op, msg⟩)

/-- The request issued by `ClusterContext::ingresses`. -/
def ingressesRequest : HostRequest := ⟨"kubernetes", "ingresses", "list", []⟩

/-- The request issued by `ClusterContext::services`. -/
def servicesRequest : HostRequest := ⟨"kubernetes", "services", "list", []⟩

/-- The request issued by `ClusterContext::namespaces`. -/
def namespacesRequest : HostRequest := ⟨"kubernetes", "namespaces", "list", []⟩

/-- The `filter_map` step of `ClusterContext::ingresses`
(`cluster_context.rs` lines 39-54). -/
def ingressFilterStep («namespace» : NamespaceFilter) (items : List Ingress) :
    List Ingress :=
  items.filterMap (fun ingress =>
    match «namespace» with
    | NamespaceFilter.AllNamespaces => some ingress
    | NamespaceFilter.Namespace namespace_filter =>
      match ingress.metadata.«namespace» with
      | some ingress_namespace =>
        if namespace_filter = ingress_namespace then some ingress else none
      | none => none)

/-- The `filter_map` step of `ClusterContext::services`
(`cluster_context.rs` lines 89-104). -/
def serviceFilterStep («namespace» : NamespaceFilter) (items : List Service) :
    List Service :=
  items.filterMap (fun service =>
    match «namespace» with
    | NamespaceFilter.AllNamespaces => some service
    | NamespaceFilter.Namespace namespace_filter =>
      match service.metadata.«namespace» with
      | some service_namespace =>
        if namespace_filter = service_namespace then some service else none
      | none => none)

/-- `ClusterContext::ingresses`, instrumented with the host-call log. -/
def ClusterContext.ingressesWithLog (w : World) («namespace» : NamespaceFilter) :
    List HostRequest × Except String (List Ingress) :=
  let call := host_call w "kubernetes" "ingresses" "list" []
  (call.1,
    match call.2 with
    | Except.error err =>
      Except.error ("failed to call ingresses binding: " ++ err)
    | Except.ok ingresses =>
      match w.fromUtf8 ingresses with
      | Except.error e => Except.error e
      | Except.ok s =>
        match w.parseIngressList s with
        | Except.error err =>
          Except.error ("failed to unmarshal ingress list: " ++ err)
        | Except.ok l => Except.ok (ingressFilterStep «namespace» l.items))

/-- `ClusterContext::ingresses`: the `Result<Vec<Ingress>>` it returns. -/
def ClusterContext.ingresses (w : World) («namespace» : NamespaceFilter) :
    Except String (List Ingress) :=
  (ClusterContext.ingressesWithLog w «namespace»).2

/-- `ClusterContext::namespaces`, instrumented with the host-call log.
It takes no filter argument and extracts `.items` unfiltered. -/
def ClusterContext.namespacesWithLog (w : World) :
    List HostRequest × Except String (List Namespace) :=
  let call := host_call w "kubernetes" "namespaces" "list" []
  (call.1,
    match call.2 with
    | Except.error err =>
      Except.error ("failed to call namespaces binding: " ++ err)
    | Except.ok namespaces =>
      match w.fromUtf8 namespaces with
      | Except.error e => Except.error e
      | Except.ok s =>
        match w.parseNamespaceList s with
        | Except.error err =>
          Except.error ("failed to unmarshal namespace list: " ++ err)
        | Except.ok l => Except.ok l.items)

/-- `ClusterContext::namespaces`: the `Result<Vec<Namespace>>` it returns. -/
def ClusterContext.namespaces (w : World) : Except String (List Namespace) :=
  (ClusterContext.namespacesWithLog w).2

/-- `ClusterContext::services`, instrumented with the host-call log. -/
def ClusterContext.servicesWithLog (w : World) («namespace» : NamespaceFilter) :
    List HostRequest × Except String (List Service) :=
  let call := host_call w "kubernetes" "services" "list" []
  (call.1,
    match call.2 with
    | Except.error err =>
      Except.error ("failed to call services binding: " ++ err)
    | Except.ok services =>
      match w.fromUtf8 services with
      | Except.error e => Except.error e
      | Except.ok s =>
        match w.parseServiceList s with
        | Except.error err =>
          Except.error ("failed to unmarshal service list: " ++ err)
        | Except.ok l => Except.ok (serviceFilterStep «namespace» l.items))

/-- `ClusterContext::services`: the `Result<Vec<Service>>` it returns. -/
def ClusterContext.services (w : World) («namespace» : NamespaceFilter) :
    Except String (List Service) :=
  (ClusterContext.servicesWithLog w «namespace»).2

/-- `ClusterContext::ingress`: find the first listed ingress whose
`metadata.name` equals `Some(name)`. -/
def ClusterContext.ingress (w : World) («namespace» : NamespaceFilter)
    (name : String) : Except String (Option Ingress) :=
  match ClusterContext.ingresses w «namespace» with
  | Except.error e => Except.error e
  | Except.ok ingresses =>
    Except.ok (ingresses.find? (fun ingress =>
      ingress.metadata.name == some name))

/-- `ClusterContext::namespace`: find the first listed namespace whose
`metadata.name` equals `Some(name)`. -/
def ClusterContext.«namespace» (w : World) (name : String) :
    Except String (Option Namespace) :=
  match ClusterContext.namespaces w with
  | Except.error e => Except.error e
  | Except.ok namespaces =>
    Except.ok (namespaces.find? (fun ns => ns.metadata.name == some name))

/-- `ClusterContext::service`: find the first listed service whose
`metadata.name` equals `Some(name)`. -/
def ClusterContext.service (w : World) («namespace» : NamespaceFilter)
    (name : String) : Except String (Option Service) :=
  match ClusterContext.services w «namespace» with
  | Except.error e => Except.error e
  | Except.ok services =>
    Except.ok (services.find? (fun service =>
      service.metadata.name == some name))

/-- `true` iff `pat` occurs as a contiguous sublist of the second list. -/
def containsChars (pat : List Char) : List Char → Bool
  | [] => pat.isEmpty
  | c :: rest => pat.isPrefixOf (c :: rest) || containsChars pat rest

/-- `true` iff `pat` occurs as a substring of `s`. -/
def mentions (s pat : String) : Bool := containsChars pat.toList s.toList

/-! ## Sample records and worlds used to instantiate theorems -/

/-- Sample ingress in namespace `ns1`. -/
def ing1 : Ingress := ⟨⟨some "a", some "ns1"⟩, "ispec1"⟩

/-- Sample ingress in namespace `ns2`. -/
def ing2 : Ingress := ⟨⟨some "b", some "ns2"⟩, "ispec2"⟩

/-- Sample ingress whose namespace field is absent. -/
def ingNoNs : Ingress := ⟨⟨some "c", none⟩, "ispec3"⟩

/-- Sample ingress whose namespace field is the empty string. -/
def ingEmptyNs : Ingress := ⟨⟨some "d", some ""⟩, "ispec4"⟩

/-- Sample service in namespace `ns1`. -/
def svc1 : Service := ⟨⟨some "a", some "ns1"⟩, "sspec1"⟩

/-- Sample service in namespace `ns2`. -/
def svc2 : Service := ⟨⟨some "b", some "ns2"⟩, "sspec2"⟩

/-- Sample service whose namespace field is absent. -/
def svcNoNs : Service := ⟨⟨some "c", none⟩, "sspec3"⟩

/-- Sample namespace record `ns1`. -/
def nsRec1 : Namespace := ⟨⟨some "ns1", none⟩, "nspec1"⟩

/-- Sample namespace record `ns2`. -/
def nsRec2 : Namespace := ⟨⟨some "ns2", none⟩, "nspec2"⟩

/-- A world whose host call and decoding always succeed. -/
def goodWorld : World where
  hostCall := fun _ => Except.ok [123]
  fromUtf8 := fun _ => Except.ok "listdoc"
  parseIngressList := fun _ => Except.ok ⟨[ing1, ing2, ingNoNs]⟩
  parseServiceList := fun _ => Except.ok ⟨[svc1, svc2, svcNoNs]⟩
  parseNamespaceList := fun _ => Except.ok ⟨[nsRec1, nsRec2]⟩

/-- Like `goodWorld`, but the host answers differently on requests the
accessor never issues (any request whose operation is not `list`). -/
def goodWorld2 : World :=
  { goodWorld with
    hostCall := fun r =>
      if r.op = "get" then Except.error "unsupported"
      else goodWorld.hostCall r }

/-- A world whose host call always fails. -/
def errWorld : World where
  hostCall := fun _ => Except.error "boom"
  fromUtf8 := fun _ => Except.error "unreachable"
  parseIngressList := fun _ => Except.error "unreachable"
  parseServiceList := fun _ => Except.error "unreachable"
  parseNamespaceList := fun _ => Except.error "unreachable"

/-- A world whose response bytes are not valid UTF-8, so the UTF-8 decoding
step fails with the standard library's error message. -/
def utf8FailWorld : World where
  hostCall := fun _ => Except.ok [255]
  fromUtf8 := fun _ =>
    Except.error "invalid utf-8 sequence of 1 bytes from index 0"
  parseIngressList := fun _ => Except.error "unreachable"
  parseServiceList := fun _ => Except.error "unreachable"
  parseNamespaceList := fun _ => Except.error "unreachable"

/-- A world whose response bytes decode as UTF-8 but are not a valid list
envelope, so the JSON parsing step fails. -/
def jsonFailWorld : World where
  hostCall := fun _ => Except.ok [110, 111]
  fromUtf8 := fun _ => Except.ok "no"
  parseIngressList := fun _ =>
    Except.error "expected value at line 1 column 1"
  parseServiceList := fun _ =>
    Except.error "expected value at line 1 column 1"
  parseNamespaceList := fun _ =>
    Except.error "expected value at line 1 column 1"

/-! ## Helper lemmas shared across the development -/

/-- Unfolding `ClusterContext.ingresses` into its fetch-decode-filter
pipeline. -/
theorem ingresses_eq (w : World) (F : NamespaceFilter) :
    ClusterContext.ingresses w F =
      match w.hostCall ingressesRequest with
      | Except.error err =>
        Except.error ("failed to call ingresses binding: " ++ err)
      | Except.ok bytes =>
        match w.fromUtf8 bytes with
        | Except.error e => Except.error e
        | Except.ok s =>
          match w.parseIngressList s with
          | Except.error err =>
            Except.error ("failed to unmarshal ingress list: " ++ err)
          | Except.ok l => Except.ok (ingressFilterStep F l.items) := rfl

/-- Unfolding `ClusterContext.services` into its fetch-decode-filter
pipeline. -/
theorem services_eq (w : World) (F : NamespaceFilter) :
    ClusterContext.services w F =
      match w.hostCall servicesRequest with
      | Except.error err =>
        Except.error ("failed to call services binding: " ++ err)
      | Except.ok bytes =>
        match w.fromUtf8 bytes with
        | Except.error e => Except.error e
        | Except.ok s =>
          match w.parseServiceList s with
          | Except.error err =>
            Except.error ("failed to unmarshal service list: " ++ err)
          | Except.ok l => Except.ok (serviceFilterStep F l.items) := rfl

/-- Unfolding `ClusterContext.namespaces` into its fetch-decode pipeline. -/
theorem namespaces_eq (w : World) :
    ClusterContext.namespaces w =
      match w.hostCall namespacesRequest with
      | Except.error err =>
        Except.error ("failed to call namespaces binding: " ++ err)
      | Except.ok bytes =>
        match w.fromUtf8 bytes with
        | Except.error e => Except.error e
        | Except.ok s =>
          match w.parseNamespaceList s with
          | Except.error err =>
            Except.error ("failed to unmarshal namespace list: " ++ err)
          | Except.ok l => Except.ok l.items := rfl

/-- The spec-side filter predicate for ingresses: `AllNamespaces` accepts
everything, `Namespace n` accepts exactly the records whose namespace field
is `some n`. -/
def ingressMatches (F : NamespaceFilter) (x : Ingress) : Bool :=
  match F with
  | NamespaceFilter.AllNamespaces => true
  | NamespaceFilter.Namespace n => x.metadata.«namespace» == some n

/-- The spec-side filter predicate for services. -/
def serviceMatches (F : NamespaceFilter) (x : Service) : Bool :=
  match F with
  | NamespaceFilter.AllNamespaces => true
  | NamespaceFilter.Namespace n => x.metadata.«namespace» == some n

/-- The code's `filter_map` step over ingresses is the order-preserving
`filter` by the spec predicate. -/
theorem ingressFilterStep_eq_filter (F : NamespaceFilter) (l : List Ingress) :
    ingressFilterStep F l = l.filter (ingressMatches F) := by
  induction l with
  | nil => cases F <;> rfl
  | cons a t ih =>
    cases F with
    | AllNamespaces =>
      simp [ingressFilterStep, List.filterMap_cons, List.filter_cons,
        ingressMatches] at *
      exact ih
    | Namespace n =>
      cases h : a.metadata.«namespace» with
      | none =>
        simp [ingressFilterStep, List.filterMap_cons, List.filter_cons,
          ingressMatches, h] at *
        exact ih
      | some m =>
        by_cases hm : n = m
        · subst hm
          simp [ingressFilterStep, List.filterMap_cons, List.filter_cons,
            ingressMatches, h] at *
          exact ih
        · simp [ingressFilterStep, List.filterMap_cons, List.filter_cons,
            ingressMatches, h, hm, Ne.symm hm] at *
          exact ih

/-- The code's `filter_map` step over services is the order-preserving
`filter` by the spec predicate. -/
theorem serviceFilterStep_eq_filter (F : NamespaceFilter) (l : List Service) :
    serviceFilterStep F l = l.filter (serviceMatches F) := by
  induction l with
  | nil => cases F <;> rfl
  | cons a t ih =>
    cases F with
    | AllNamespaces =>
      simp [serviceFilterStep, List.filterMap_cons, List.filter_cons,
        serviceMatches] at *
      exact ih
    | Namespace n =>
      cases h : a.metadata.«namespace» with
      | none =>
        simp [serviceFilterStep, List.filterMap_cons, List.filter_cons,
          serviceMatches, h] at *
        exact ih
      | some m =>
        by_cases hm : n = m
        · subst hm
          simp [serviceFilterStep, List.filterMap_cons, List.filter_cons,
            serviceMatches, h] at *
          exact ih
        · simp [serviceFilterStep, List.filterMap_cons, List.filter_cons,
            serviceMatches, h, hm, Ne.symm hm] at *
          exact ih

/-- `List.find?` returns the element at the first index satisfying the
predicate. -/
theorem find?_first {α : Type} (p : α → Bool) :
    ∀ (l : List α) (i : Nat) (h : i < l.length),
      (∀ j (hj : j < i), p (l.get ⟨j, Nat.lt_trans hj h⟩) = false) →
      p (l.get ⟨i, h⟩) = true → l.find? p = some (l.get ⟨i, h⟩)
  | a :: t, 0, _, _, hp => by
    simpa [List.find?_cons] using List.find?_cons_of_pos t hp
  | a :: t, i + 1, h, hbefore, hp => by
    have ha : p a = false := hbefore 0 (Nat.succ_pos i)
    have ht : t.find? p = some (t.get ⟨i, Nat.lt_of_succ_lt_succ h⟩) :=
      find?_first p t i (Nat.lt_of_succ_lt_succ h)
        (fun j hj => hbefore (j + 1) (Nat.succ_lt_succ hj)) hp
    rw [List.find?_cons_of_neg t (by simp [ha])]
    simpa using ht

/-! ## Claim theorems -/

/-- C7: every `list_K` call issues exactly one cross-boundary request,
identifying the binding "kubernetes", the kind token for K
(`namespaces` | `services` | `ingresses`), the operation token "list",
and an empty binary payload, regardless of the active namespace filter. -/
theorem C7_single_request (w : World) (F : NamespaceFilter) :
    (ClusterContext.ingressesWithLog w F).1 = [ingressesRequest] ∧
    (ClusterContext.servicesWithLog w F).1 = [servicesRequest] ∧
    (ClusterContext.namespacesWithLog w).1 = [namespacesRequest] ∧
    ClusterContext.ingresses w F = (ClusterContext.ingressesWithLog w F).2 ∧
    ClusterContext.services w F = (ClusterContext.servicesWithLog w F).2 ∧
    ClusterContext.namespaces w = (ClusterContext.namespacesWithLog w).2 ∧
    ingressesRequest =
      { binding := "kubernetes", ns := "ingresses", op := "list", msg := [] } ∧
    servicesRequest =
      { binding := "kubernetes", ns := "services", op := "list", msg := [] } ∧
    namespacesRequest =
      { binding := "kubernetes", ns := "namespaces", op := "list", msg := [] } :=
  ⟨rfl, rfl, rfl, rfl, rfl, rfl, rfl, rfl, rfl⟩

/-- C5: for each namespaced kind, the namespace-filtering step is
idempotent: filtering an already-filtered-by-`Namespace n` collection
again by `Namespace n` yields the same collection, elements and order. -/
theorem C5_filter_idempotent (n : String) (li : List Ingress)
    (ls : List Service) :
    ingressFilterStep (NamespaceFilter.Namespace n)
        (ingressFilterStep (NamespaceFilter.Namespace n) li) =
      ingressFilterStep (NamespaceFilter.Namespace n) li ∧
    serviceFilterStep (NamespaceFilter.Namespace n)
        (serviceFilterStep (NamespaceFilter.Namespace n) ls) =
      serviceFilterStep (NamespaceFilter.Namespace n) ls := by
  constructor
  · simp [ingressFilterStep_eq_filter, List.filter_filter, Bool.and_self]
  · simp [serviceFilterStep_eq_filter, List.filter_filter, Bool.and_self]

/-- C1: when the cross-boundary call and decoding succeed, `list_K(F)` for
K in Service, Ingress returns exactly the order-preserving filter of the
decoded items: every returned element satisfies the filter predicate (for
`Namespace n` the item's namespace field is present and equals `n`; items
lacking a namespace field are dropped), and for `AllNamespaces` the full
decoded collection is returned in its original order. -/
theorem C1_list_is_ordered_filter (w : World) (F : NamespaceFilter)
    (bi : List Nat) (si : String) (li : KList Ingress)
    (bs : List Nat) (ss : String) (ls : KList Service)
    (hbi : w.hostCall ingressesRequest = Except.ok bi)
    (hui : w.fromUtf8 bi = Except.ok si)
    (hpi : w.parseIngressList si = Except.ok li)
    (hbs : w.hostCall servicesRequest = Except.ok bs)
    (hus : w.fromUtf8 bs = Except.ok ss)
    (hps : w.parseServiceList ss = Except.ok ls) :
    ClusterContext.ingresses w F =
      Except.ok (li.items.filter (ingressMatches F)) ∧
    ClusterContext.services w F =
      Except.ok (ls.items.filter (serviceMatches F)) ∧
    (∀ n, F = NamespaceFilter.Namespace n →
      (∀ x ∈ li.items.filter (ingressMatches F),
        x.metadata.«namespace» = some n) ∧
      (∀ x ∈ ls.items.filter (serviceMatches F),
        x.metadata.«namespace» = some n)) ∧
    (F = NamespaceFilter.AllNamespaces →
      ClusterContext.ingresses w F = Except.ok li.items ∧
      ClusterContext.services w F = Except.ok ls.items) := by
  have hieq : ClusterContext.ingresses w F =
      Except.ok (li.items.filter (ingressMatches F)) := by
    rw [ingresses_eq, hbi]
    simp only [hui, hpi, ingressFilterStep_eq_filter]
  have hseq : ClusterContext.services w F =
      Except.ok (ls.items.filter (serviceMatches F)) := by
    rw [services_eq, hbs]
    simp only [hus, hps, serviceFilterStep_eq_filter]
  refine ⟨hieq, hseq, ?_, ?_⟩
  · intro n hF
    subst hF
    constructor
    · intro x hx
      have := (List.mem_filter.mp hx).2
      simpa [ingressMatches] using this
    · intro x hx
      have := (List.mem_filter.mp hx).2
      simpa [serviceMatches] using this
  · intro hF
    subst hF
    constructor
    · rw [hieq]
      simp [ingressMatches]
    · rw [hseq]
      simp [serviceMatches]

/-- C1 witness: in `goodWorld`, filtering by `ns1` keeps exactly the
records in namespace `ns1`, in order. -/
theorem C1_witness :
    ClusterContext.ingresses goodWorld (NamespaceFilter.Namespace "ns1") =
      Except.ok [ing1] ∧
    ClusterContext.services goodWorld (NamespaceFilter.Namespace "ns1") =
      Except.ok [svc1] := by
  have h := C1_list_is_ordered_filter goodWorld
    (NamespaceFilter.Namespace "ns1") [123] "listdoc" ⟨[ing1, ing2, ingNoNs]⟩
    [123] "listdoc" ⟨[svc1, svc2, svcNoNs]⟩ rfl rfl rfl rfl rfl rfl
  exact ⟨h.1.trans rfl, h.2.1.trans rfl⟩

/-- C2: for every kind, filter and name, `get_K(F, name)` equals the first
record of `list_K(F)` (in list order) whose `metadata.name` equals
`Some(name)`; it returns `None` iff no listed item has that name, and when
several items share the name the first in list order is returned. -/
theorem C2_get_is_first_match (w : World) (F : NamespaceFilter)
    (name : String) (li : List Ingress) (ls : List Service)
    (ln : List Namespace)
    (hi : ClusterContext.ingresses w F = Except.ok li)
    (hs : ClusterContext.services w F = Except.ok ls)
    (hn : ClusterContext.namespaces w = Except.ok ln) :
    (ClusterContext.ingress w F name =
        Except.ok (li.find? (fun x => x.metadata.name == some name)) ∧
      (ClusterContext.ingress w F name = Except.ok none ↔
        ∀ x ∈ li, ¬x.metadata.name = some name) ∧
      ∀ (i : Nat) (h : i < li.length),
        (∀ j (hj : j < i),
          ¬(li.get ⟨j, Nat.lt_trans hj h⟩).metadata.name = some name) →
        (li.get ⟨i, h⟩).metadata.name = some name →
        ClusterContext.ingress w F name =
          Except.ok (some (li.get ⟨i, h⟩))) ∧
    (ClusterContext.service w F name =
        Except.ok (ls.find? (fun x => x.metadata.name == some name)) ∧
      (ClusterContext.service w F name = Except.ok none ↔
        ∀ x ∈ ls, ¬x.metadata.name = some name) ∧
      ∀ (i : Nat) (h : i < ls.length),
        (∀ j (hj : j < i),
          ¬(ls.get ⟨j, Nat.lt_trans hj h⟩).metadata.name = some name) →
        (ls.get ⟨i, h⟩).metadata.name = some name →
        ClusterContext.service w F name =
          Except.ok (some (ls.get ⟨i, h⟩))) ∧
    (ClusterContext.«namespace» w name =
        Except.ok (ln.find? (fun x => x.metadata.name == some name)) ∧
      (ClusterContext.«namespace» w name = Except.ok none ↔
        ∀ x ∈ ln, ¬x.metadata.name = some name) ∧
      ∀ (i : Nat) (h : i < ln.length),
        (∀ j (hj : j < i),
          ¬(ln.get ⟨j, Nat.lt_trans hj h⟩).metadata.name = some name) →
        (ln.get ⟨i, h⟩).metadata.name = some name →
        ClusterContext.«namespace» w name =
          Except.ok (some (ln.get ⟨i, h⟩))) := by
  have hgi : ClusterContext.ingress w F name =
      Except.ok (li.find? (fun x => x.metadata.name == some name)) := by
    simp [ClusterContext.ingress, hi]
  have hgs : ClusterContext.service w F name =
      Except.ok (ls.find? (fun x => x.metadata.name == some name)) := by
    simp [ClusterContext.service, hs]
  have hgn : ClusterContext.«namespace» w name =
      Except.ok (ln.find? (fun x => x.metadata.name == some name)) := by
    simp [ClusterContext.«namespace», hn]
  refine ⟨⟨hgi, ?_, ?_⟩, ⟨hgs, ?_, ?_⟩, ⟨hgn, ?_, ?_⟩⟩
  · rw [hgi]
    simp [List.find?_eq_none]
  · intro i h hbefore hp
    rw [hgi, find?_first _ li i h
      (fun j hj => by simpa using hbefore j hj) (by simpa using hp)]
  · rw [hgs]
    simp [List.find?_eq_none]
  · intro i h hbefore hp
    rw [hgs, find?_first _ ls i h
      (fun j hj => by simpa using hbefore j hj) (by simpa using hp)]
  · rw [hgn]
    simp [List.find?_eq_none]
  · intro i h hbefore hp
    rw [hgn, find?_first _ ln i h
      (fun j hj => by simpa using hbefore j hj) (by simpa using hp)]

/-- C2 witness: in `goodWorld`, `get` returns the first listed record with
the queried name, and `None` when no record has the name. -/
theorem C2_witness :
    ClusterContext.ingress goodWorld NamespaceFilter.AllNamespaces "b" =
      Except.ok (some ing2) ∧
    ClusterContext.service goodWorld (NamespaceFilter.Namespace "ns2") "a" =
      Except.ok none := by
  constructor
  · have h := C2_get_is_first_match goodWorld NamespaceFilter.AllNamespaces
      "b" [ing1, ing2, ingNoNs] [svc1, svc2, svcNoNs] [nsRec1, nsRec2]
      rfl rfl rfl
    exact h.1.1.trans rfl
  · have h := C2_get_is_first_match goodWorld
      (NamespaceFilter.Namespace "ns2") "a" [ing2] [svc2] [nsRec1, nsRec2]
      rfl rfl rfl
    exact h.2.1.1.trans rfl

/-- C3: for every kind, `list_K` fails exactly when the host call fails
(the bridge error is propagated immediately) or the response fails to
decode (UTF-8 or envelope); no error is downgraded to a success, there is
no partial result, and a successful result is always the full decoded
collection (filtered, for the namespaced kinds), so it is empty only when
zero items match. -/
theorem C3_error_propagation (w : World) (F : NamespaceFilter) :
    (∀ e, w.hostCall ingressesRequest = Except.error e →
      ClusterContext.ingresses w F =
        Except.error ("failed to call ingresses binding: " ++ e)) ∧
    (∀ b e, w.hostCall ingressesRequest = Except.ok b →
      w.fromUtf8 b = Except.error e →
      ClusterContext.ingresses w F = Except.error e) ∧
    (∀ b s e, w.hostCall ingressesRequest = Except.ok b →
      w.fromUtf8 b = Except.ok s →
      w.parseIngressList s = Except.error e →
      ClusterContext.ingresses w F =
        Except.error ("failed to unmarshal ingress list: " ++ e)) ∧
    (∀ r, ClusterContext.ingresses w F = Except.ok r →
      ∃ b s l, w.hostCall ingressesRequest = Except.ok b ∧
        w.fromUtf8 b = Except.ok s ∧ w.parseIngressList s = Except.ok l ∧
        r = l.items.filter (ingressMatches F)) ∧
    (∀ e, w.hostCall servicesRequest = Except.error e →
      ClusterContext.services w F =
        Except.error ("failed to call services binding: " ++ e)) ∧
    (∀ b e, w.hostCall servicesRequest = Except.ok b →
      w.fromUtf8 b = Except.error e →
      ClusterContext.services w F = Except.error e) ∧
    (∀ b s e, w.hostCall servicesRequest = Except.ok b →
      w.fromUtf8 b = Except.ok s →
      w.parseServiceList s = Except.error e →
      ClusterContext.services w F =
        Except.error ("failed to unmarshal service list: " ++ e)) ∧
    (∀ r, ClusterContext.services w F = Except.ok r →
      ∃ b s l, w.hostCall servicesRequest = Except.ok b ∧
        w.fromUtf8 b = Except.ok s ∧ w.parseServiceList s = Except.ok l ∧
        r = l.items.filter (serviceMatches F)) ∧
    (∀ e, w.hostCall namespacesRequest = Except.error e →
      ClusterContext.namespaces w =
        Except.error ("failed to call namespaces binding: " ++ e)) ∧
    (∀ b e, w.hostCall namespacesRequest = Except.ok b →
      w.fromUtf8 b = Except.error e →
      ClusterContext.namespaces w = Except.error e) ∧
    (∀ b s e, w.hostCall namespacesRequest = Except.ok b →
      w.fromUtf8 b = Except.ok s →
      w.parseNamespaceList s = Except.error e →
      ClusterContext.namespaces w =
        Except.error ("failed to unmarshal namespace list: " ++ e)) ∧
    (∀ r, ClusterContext.namespaces w = Except.ok r →
      ∃ b s l, w.hostCall namespacesRequest = Except.ok b ∧
        w.fromUtf8 b = Except.ok s ∧ w.parseNamespaceList s = Except.ok l ∧
        r = l.items) := by
  refine ⟨?_, ?_, ?_, ?_, ?_, ?_, ?_, ?_, ?_, ?_, ?_, ?_⟩
  · intro e he
    rw [ingresses_eq, he]
  · intro b e hb he
    rw [ingresses_eq, hb]
    simp only [he]
  · intro b s e hb hs he
    rw [ingresses_eq, hb]
    simp only [hs, he]
  · intro r hr
    rw [ingresses_eq] at hr
    cases hb : w.hostCall ingressesRequest with
    | error e => rw [hb] at hr; exact absurd hr (by simp)
    | ok b =>
      rw [hb] at hr
      cases hu : w.fromUtf8 b with
      | error e => simp only [hu] at hr; exact absurd hr (by simp)
      | ok s =>
        simp only [hu] at hr
        cases hp : w.parseIngressList s with
        | error e => simp only [hp] at hr; exact absurd hr (by simp)
        | ok l =>
          simp only [hp] at hr
          refine ⟨b, s, l, rfl, hu, hp, ?_⟩
          have : r = ingressFilterStep F l.items := by
            simpa using hr.symm
          rw [this, ingressFilterStep_eq_filter]
  · intro e he
    rw [services_eq, he]
  · intro b e hb he
    rw [services_eq, hb]
    simp only [he]
  · intro b s e hb hs he
    rw [services_eq, hb]
    simp only [hs, he]
  · intro r hr
    rw [services_eq] at hr
    cases hb : w.hostCall servicesRequest with
    | error e => rw [hb] at hr; exact absurd hr (by simp)
    | ok b =>
      rw [hb] at hr
      cases hu : w.fromUtf8 b with
      | error e => simp only [hu] at hr; exact absurd hr (by simp)
      | ok s =>
        simp only [hu] at hr
        cases hp : w.parseServiceList s with
        | error e => simp only [hp] at hr; exact absurd hr (by simp)
        | ok l =>
          simp only [hp] at hr
          refine ⟨b, s, l, rfl, hu, hp, ?_⟩
          have : r = serviceFilterStep F l.items := by
            simpa using hr.symm
          rw [this, serviceFilterStep_eq_filter]
  · intro e he
    rw [namespaces_eq, he]
  · intro b e hb he
    rw [namespaces_eq, hb]
    simp only [he]
  · intro b s e hb hs he
    rw [namespaces_eq, hb]
    simp only [hs, he]
  · intro r hr
    rw [namespaces_eq] at hr
    cases hb : w.hostCall namespacesRequest with
    | error e => rw [hb] at hr; exact absurd hr (by simp)
    | ok b =>
      rw [hb] at hr
      cases hu : w.fromUtf8 b with
      | error e => simp only [hu] at hr; exact absurd hr (by simp)
      | ok s =>
        simp only [hu] at hr
        cases hp : w.parseNamespaceList s with
        | error e => simp only [hp] at hr; exact absurd hr (by simp)
        | ok l =>
          simp only [hp] at hr
          exact ⟨b, s, l, rfl, hu, hp, by simpa using hr.symm⟩

/-- C3 witness: a failing host call is surfaced as a wrapped bridge error,
a JSON decode failure as a wrapped unmarshal error, and the Namespace-kind
accessor propagates bridge errors the same way. -/
theorem C3_witness :
    ClusterContext.ingresses errWorld NamespaceFilter.AllNamespaces =
      Except.error "failed to call ingresses binding: boom" ∧
    ClusterContext.services jsonFailWorld NamespaceFilter.AllNamespaces =
      Except.error
        "failed to unmarshal service list: expected value at line 1 column 1" ∧
    ClusterContext.namespaces jsonFailWorld =
      Except.error
        "failed to unmarshal namespace list: expected value at line 1 column 1" := by
  refine ⟨?_, ?_, ?_⟩
  · exact (C3_error_propagation errWorld NamespaceFilter.AllNamespaces).1
      "boom" rfl
  · exact (C3_error_propagation jsonFailWorld
      NamespaceFilter.AllNamespaces).2.2.2.2.2.2.1 [110, 111] "no"
      "expected value at line 1 column 1" rfl rfl rfl
  · exact (C3_error_propagation jsonFailWorld
      NamespaceFilter.AllNamespaces).2.2.2.2.2.2.2.2.2.2.1 [110, 111] "no"
      "expected value at line 1 column 1" rfl rfl rfl

/-- C4: the Namespace-kind list operation takes no filter and returns the
full decoded collection unchanged, while Service and Ingress listings
apply the filter to theirs. -/
theorem C4_namespaces_unfiltered (w : World) (F : NamespaceFilter)
    (bn : List Nat) (sn : String) (ln : KList Namespace)
    (bi : List Nat) (si : String) (li : KList Ingress)
    (bs : List Nat) (ss : String) (ls : KList Service)
    (hbn : w.hostCall namespacesRequest = Except.ok bn)
    (hun : w.fromUtf8 bn = Except.ok sn)
    (hpn : w.parseNamespaceList sn = Except.ok ln)
    (hbi : w.hostCall ingressesRequest = Except.ok bi)
    (hui : w.fromUtf8 bi = Except.ok si)
    (hpi : w.parseIngressList si = Except.ok li)
    (hbs : w.hostCall servicesRequest = Except.ok bs)
    (hus : w.fromUtf8 bs = Except.ok ss)
    (hps : w.parseServiceList ss = Except.ok ls) :
    ClusterContext.namespaces w = Except.ok ln.items ∧
    ClusterContext.ingresses w F =
      Except.ok (li.items.filter (ingressMatches F)) ∧
    ClusterContext.services w F =
      Except.ok (ls.items.filter (serviceMatches F)) := by
  refine ⟨?_, ?_, ?_⟩
  · rw [namespaces_eq, hbn]
    simp only [hun, hpn]
  · rw [ingresses_eq, hbi]
    simp only [hui, hpi, ingressFilterStep_eq_filter]
  · rw [services_eq, hbs]
    simp only [hus, hps, serviceFilterStep_eq_filter]

/-- C4 witness: in `goodWorld` the namespace listing is the full decoded
collection in order, untouched by any filter. -/
theorem C4_witness :
    ClusterContext.namespaces goodWorld = Except.ok [nsRec1, nsRec2] := by
  exact (C4_namespaces_unfiltered goodWorld (NamespaceFilter.Namespace "ns1")
    [123] "listdoc" ⟨[nsRec1, nsRec2]⟩ [123] "listdoc" ⟨[ing1, ing2, ingNoNs]⟩
    [123] "listdoc" ⟨[svc1, svc2, svcNoNs]⟩
    rfl rfl rfl rfl rfl rfl rfl rfl rfl).1

/-- C6 counterexample: the claim says every DecodeError — including one
from invalid UTF-8 bytes — is surfaced with context naming the resource
kind.  In `utf8FailWorld` the UTF-8 decoding step fails and the error is
surfaced verbatim: the result is exactly the underlying UTF-8 error
message, which names no resource kind and carries no added context. -/
theorem C6_counterexample :
    ClusterContext.ingresses utf8FailWorld NamespaceFilter.AllNamespaces =
      Except.error "invalid utf-8 sequence of 1 bytes from index 0" ∧
    mentions "invalid utf-8 sequence of 1 bytes from index 0" "ingress"
      = false ∧
    mentions "invalid utf-8 sequence of 1 bytes from index 0" "Ingress"
      = false :=
  ⟨rfl, by decide, by decide⟩

/-- C6 (amended): a BridgeError carries the underlying host-call message
wrapped with context naming the kind's binding, and a DecodeError from a
JSON envelope mismatch is surfaced with context naming the resource kind;
a DecodeError from invalid UTF-8 bytes, however, is surfaced as the
underlying error message alone, without kind-naming context. -/
theorem C6_error_context (w : World) (F : NamespaceFilter) :
    (∀ e, w.hostCall ingressesRequest = Except.error e →
      ClusterContext.ingresses w F =
        Except.error ("failed to call ingresses binding: " ++ e)) ∧
    (∀ b s e, w.hostCall ingressesRequest = Except.ok b →
      w.fromUtf8 b = Except.ok s →
      w.parseIngressList s = Except.error e →
      ClusterContext.ingresses w F =
        Except.error ("failed to unmarshal ingress list: " ++ e)) ∧
    (∀ b e, w.hostCall ingressesRequest = Except.ok b →
      w.fromUtf8 b = Except.error e →
      ClusterContext.ingresses w F = Except.error e) ∧
    (∀ e, w.hostCall namespacesRequest = Except.error e →
      ClusterContext.namespaces w =
        Except.error ("failed to call namespaces binding: " ++ e)) ∧
    (∀ b s e, w.hostCall namespacesRequest = Except.ok b →
      w.fromUtf8 b = Except.ok s →
      w.parseNamespaceList s = Except.error e →
      ClusterContext.namespaces w =
        Except.error ("failed to unmarshal namespace list: " ++ e)) ∧
    (∀ b e, w.hostCall namespacesRequest = Except.ok b →
      w.fromUtf8 b = Except.error e →
      ClusterContext.namespaces w = Except.error e) ∧
    (∀ e, w.hostCall servicesRequest = Except.error e →
      ClusterContext.services w F =
        Except.error ("failed to call services binding: " ++ e)) ∧
    (∀ b s e, w.hostCall servicesRequest = Except.ok b →
      w.fromUtf8 b = Except.ok s →
      w.parseServiceList s = Except.error e →
      ClusterContext.services w F =
        Except.error ("failed to unmarshal service list: " ++ e)) ∧
    (∀ b e, w.hostCall servicesRequest = Except.ok b →
      w.fromUtf8 b = Except.error e →
      ClusterContext.services w F = Except.error e) ∧
    mentions "failed to call ingresses binding: " "ingresses" = true ∧
    mentions "failed to unmarshal ingress list: " "ingress" = true ∧
    mentions "failed to call namespaces binding: " "namespaces" = true ∧
    mentions "failed to unmarshal namespace list: " "namespace" = true ∧
    mentions "failed to call services binding: " "services" = true ∧
    mentions "failed to unmarshal service list: " "service" = true := by
  refine ⟨?_, ?_, ?_, ?_, ?_, ?_, ?_, ?_, ?_,
    by decide, by decide, by decide, by decide, by decide, by decide⟩
  · intro e he
    rw [ingresses_eq, he]
  · intro b s e hb hs he
    rw [ingresses_eq, hb]
    simp only [hs, he]
  · intro b e hb he
    rw [ingresses_eq, hb]
    simp only [he]
  · intro e he
    rw [namespaces_eq, he]
  · intro b s e hb hs he
    rw [namespaces_eq, hb]
    simp only [hs, he]
  · intro b e hb he
    rw [namespaces_eq, hb]
    simp only [he]
  · intro e he
    rw [services_eq, he]
  · intro b s e hb hs he
    rw [services_eq, hb]
    simp only [hs, he]
  · intro b e hb he
    rw [services_eq, hb]
    simp only [he]

/-- C6 witness: in `errWorld` the bridge error is wrapped with context,
while in `utf8FailWorld` the UTF-8 error passes through bare. -/
theorem C6_witness :
    ClusterContext.namespaces errWorld =
      Except.error "failed to call namespaces binding: boom" ∧
    ClusterContext.services utf8FailWorld NamespaceFilter.AllNamespaces =
      Except.error "invalid utf-8 sequence of 1 bytes from index 0" := by
  constructor
  · exact (C6_error_context errWorld NamespaceFilter.AllNamespaces).2.2.2.1
      "boom" rfl
  · exact (C6_error_context utf8FailWorld
      NamespaceFilter.AllNamespaces).2.2.2.2.2.2.2.2.1 [255]
      "invalid utf-8 sequence of 1 bytes from index 0" rfl rfl

/-- C8: `get_K(F, name)` never returns a record whose `metadata.name` is
absent: any returned record's name field equals `Some(name)`, for every
kind, filter and name, including the empty string. -/
theorem C8_get_never_nameless (w : World) (F : NamespaceFilter)
    (name : String) :
    (∀ x, ClusterContext.ingress w F name = Except.ok (some x) →
      x.metadata.name = some name ∧ x.metadata.name ≠ none) ∧
    (∀ x, ClusterContext.service w F name = Except.ok (some x) →
      x.metadata.name = some name ∧ x.metadata.name ≠ none) ∧
    (∀ x, ClusterContext.«namespace» w name = Except.ok (some x) →
      x.metadata.name = some name ∧ x.metadata.name ≠ none) := by
  refine ⟨?_, ?_, ?_⟩
  · intro x hx
    cases h : ClusterContext.ingresses w F with
    | error e => simp [ClusterContext.ingress, h] at hx
    | ok l =>
      simp only [ClusterContext.ingress, h, Except.ok.injEq] at hx
      have := List.find?_some hx
      simp only [beq_iff_eq] at this
      exact ⟨this, by simp [this]⟩
  · intro x hx
    cases h : ClusterContext.services w F with
    | error e => simp [ClusterContext.service, h] at hx
    | ok l =>
      simp only [ClusterContext.service, h, Except.ok.injEq] at hx
      have := List.find?_some hx
      simp only [beq_iff_eq] at this
      exact ⟨this, by simp [this]⟩
  · intro x hx
    cases h : ClusterContext.namespaces w with
    | error e => simp [ClusterContext.«namespace», h] at hx
    | ok l =>
      simp only [ClusterContext.«namespace», h, Except.ok.injEq] at hx
      have := List.find?_some hx
      simp only [beq_iff_eq] at this
      exact ⟨this, by simp [this]⟩

/-- C8 witness: the record returned for name `a` in `goodWorld` indeed
carries `metadata.name = some "a"`. -/
theorem C8_witness :
    ing1.metadata.name = some "a" ∧ ing1.metadata.name ≠ none :=
  (C8_get_never_nameless goodWorld NamespaceFilter.AllNamespaces "a").1
    ing1 rfl

/-- C9: each accessor is deterministic in its inputs: two worlds whose
decoder functions agree and whose host gives the same response (bytes or
error) to the one issued request produce identical results for `list_K`
and `get_K`, for the same filter and name arguments. -/
theorem C9_deterministic (w₁ w₂ : World) (F : NamespaceFilter)
    (name : String)
    (hu : w₁.fromUtf8 = w₂.fromUtf8)
    (hpi : w₁.parseIngressList = w₂.parseIngressList)
    (hps : w₁.parseServiceList = w₂.parseServiceList)
    (hpn : w₁.parseNamespaceList = w₂.parseNamespaceList)
    (hci : w₁.hostCall ingressesRequest = w₂.hostCall ingressesRequest)
    (hcs : w₁.hostCall servicesRequest = w₂.hostCall servicesRequest)
    (hcn : w₁.hostCall namespacesRequest = w₂.hostCall namespacesRequest) :
    ClusterContext.ingresses w₁ F = ClusterContext.ingresses w₂ F ∧
    ClusterContext.services w₁ F = ClusterContext.services w₂ F ∧
    ClusterContext.namespaces w₁ = ClusterContext.namespaces w₂ ∧
    ClusterContext.ingress w₁ F name = ClusterContext.ingress w₂ F name ∧
    ClusterContext.service w₁ F name = ClusterContext.service w₂ F name ∧
    ClusterContext.«namespace» w₁ name =
      ClusterContext.«namespace» w₂ name := by
  have hi : ClusterContext.ingresses w₁ F = ClusterContext.ingresses w₂ F := by
    rw [ingresses_eq, ingresses_eq, hci, hu, hpi]
  have hs : ClusterContext.services w₁ F = ClusterContext.services w₂ F := by
    rw [services_eq, services_eq, hcs, hu, hps]
  have hn : ClusterContext.namespaces w₁ = ClusterContext.namespaces w₂ := by
    rw [namespaces_eq, namespaces_eq, hcn, hu, hpn]
  refine ⟨hi, hs, hn, ?_, ?_, ?_⟩
  · simp only [ClusterContext.ingress, hi]
  · simp only [ClusterContext.service, hs]
  · simp only [ClusterContext.«namespace», hn]

/-- C9 witness: `goodWorld2` answers differently from `goodWorld` on
requests the accessors never issue, yet every accessor result agrees. -/
theorem C9_witness :
    ClusterContext.ingresses goodWorld NamespaceFilter.AllNamespaces =
      ClusterContext.ingresses goodWorld2 NamespaceFilter.AllNamespaces ∧
    ClusterContext.service goodWorld NamespaceFilter.AllNamespaces "a" =
      ClusterContext.service goodWorld2 NamespaceFilter.AllNamespaces "a" := by
  have h := C9_deterministic goodWorld goodWorld2
    NamespaceFilter.AllNamespaces "a" rfl rfl rfl rfl rfl rfl rfl
  exact ⟨h.1, h.2.2.2.2.1⟩

/-- C10: `Namespace("")` is not a wildcard and is not `AllNamespaces`:
a record passes only when its namespace field is present and equals the
empty string; records lacking a namespace field are still dropped, and the
two filters give different results on such records. -/
theorem C10_empty_filter_not_wildcard :
    (∀ (l : List Ingress) (x : Ingress),
      x ∈ ingressFilterStep (NamespaceFilter.Namespace "") l ↔
        x ∈ l ∧ x.metadata.«namespace» = some "") ∧
    (∀ (l : List Service) (x : Service),
      x ∈ serviceFilterStep (NamespaceFilter.Namespace "") l ↔
        x ∈ l ∧ x.metadata.«namespace» = some "") ∧
    ingressFilterStep (NamespaceFilter.Namespace "")
      [ingNoNs, ingEmptyNs] = [ingEmptyNs] ∧
    ingressFilterStep NamespaceFilter.AllNamespaces
      [ingNoNs, ingEmptyNs] = [ingNoNs, ingEmptyNs] ∧
    serviceFilterStep (NamespaceFilter.Namespace "") [svcNoNs] = [] ∧
    serviceFilterStep NamespaceFilter.AllNamespaces [svcNoNs] = [svcNoNs] ∧
    ClusterContext.ingresses goodWorld (NamespaceFilter.Namespace "") =
      Except.ok [] ∧
    ClusterContext.ingresses goodWorld NamespaceFilter.AllNamespaces =
      Except.ok [ing1, ing2, ingNoNs] := by
  refine ⟨?_, ?_, rfl, rfl, rfl, rfl, rfl, rfl⟩
  · intro l x
    rw [ingressFilterStep_eq_filter, List.mem_filter]
    simp [ingressMatches]
  · intro l x
    rw [serviceFilterStep_eq_filter, List.mem_filter]
    simp [serviceMatches]

/-- C10 witness: a record whose namespace field is the empty string is
retained by the `Namespace("")` filter. -/
theorem C10_witness :
    ingEmptyNs ∈ ingressFilterStep (NamespaceFilter.Namespace "")
      [ingNoNs, ingEmptyNs] :=
  (C10_empty_filter_not_wildcard.1 [ingNoNs, ingEmptyNs] ingEmptyNs).mpr
    ⟨by decide, rfl⟩
